import Mathlib

/-! Shallow embedding of `telemetry_scan.py` (COSMOS telemetry experiment).
Machine floats are modelled as exact rationals, serial writes as the list of
frames emitted, and Python exceptions as `Except` / `Option` error values. -/

/-- Python 2 `round(q, d)`: round to `d` decimal places, halves away from zero,
modelled over exact rationals. -/
def pyRound (q : ℚ) (d : ℕ) : ℚ :=
  let m : ℚ := (10 : ℚ) ^ d
  (if 0 ≤ q then ((⌊q * m + 1/2⌋ : ℤ) : ℚ) else -((⌊-(q * m) + 1/2⌋ : ℤ) : ℚ)) / m

/-- Python `int(q)`: truncation toward zero. -/
def truncRat (q : ℚ) : ℤ :=
  if 0 ≤ q then ⌊q⌋ else -⌊-q⌋

/-- `struct.pack(">h", n)` followed by `(ord(B[0]), ord(B[1]))`: big-endian
signed 16-bit encoding; `none` models `struct.error` on an out-of-range
argument. -/
def pack16 (n : ℤ) : Option (ℕ × ℕ) :=
  if -32768 ≤ n ∧ n ≤ 32767 then
    let u : ℕ := (n % 65536).toNat
    some (u / 256, u % 256)
  else none

/-- `ITLA.cal_checksum(*data)`. -/
def cal_checksum (d0 d1 d2 d3 : ℕ) : ℕ :=
  let bip8 := (d0 &&& 0x0f) ^^^ d1 ^^^ d2 ^^^ d3
  ((bip8 &&& 0xf0) >>> 4) ^^^ (bip8 &&& 0x0f)

/-- The frame construction common to `set_power`, `set_channel` and
`set_first_channel_frequency`: compute `bip4 = cal_checksum(data0..data3)`,
then `data0 = data0 ^ (bip4 << 4)` and emit the four bytes. -/
def mkFrame (data0 data1 data2 data3 : ℕ) : List ℕ :=
  let bip4 := cal_checksum data0 data1 data2 data3
  [data0 ^^^ (bip4 <<< 4), data1, data2, data3]

/-- `ITLA.laser_off`: fixed frame `bytearray([01, 50, 0, 0])`. -/
def laser_off_frame : List ℕ := [1, 50, 0, 0]

/-- `ITLA.laser_on`: fixed frame `bytearray([129, 50, 0, 8])`. -/
def laser_on_frame : List ℕ := [129, 50, 0, 8]

/-- Checksum conformance of a 4-byte frame: the high nibble of the first byte
equals the 4-bit BIP folded from `bip8`, which is the XOR of the low nibble of
the first byte with the other three bytes. -/
def frameOk : List ℕ → Bool
  | [b0, b1, b2, b3] =>
    let bip8 := (b0 &&& 0x0f) ^^^ b1 ^^^ b2 ^^^ b3
    let bip4 := ((bip8 &&& 0xf0) >>> 4) ^^^ (bip8 &&& 0x0f)
    ((b0 >>> 4) &&& 0x0f) == bip4
  | _ => false

/-- `ITLA.set_power(value)`; the result is the list of frames written to the
serial session, or the raised error. -/
def set_power (value : ℚ) : Except String (List (List ℕ)) :=
  if value < 6 ∨ value > 13.5 then .error "PowerLimitError"
  else
    match pack16 (truncRat (pyRound value 2 * 100)) with
    | some (hi, lo) => .ok [mkFrame 1 49 hi lo]
    | none => .error "struct.error"

/-- `ITLA.set_channel(num)`. -/
def set_channel (num : ℤ) : Except String (List (List ℕ)) :=
  match pack16 num with
  | some (hi, lo) => .ok [mkFrame 1 48 hi lo]
  | none => .error "struct.error"

/-- `ITLA.set_first_channel_frequency(freq)`: `FCF1 = int(math.floor(freq))`
to register 53 (0x35), then `FCF2 = int(round(freq - FCF1, 3) * 10000)` to
register 54 (0x36); the two frames are written in order with a settling sleep
between them. -/
def set_first_channel_frequency (freq : ℚ) : Except String (List (List ℕ)) :=
  let FCF1 : ℤ := ⌊freq⌋
  match pack16 FCF1 with
  | none => .error "struct.error"
  | some (hi1, lo1) =>
    let FCF2 : ℤ := truncRat (pyRound (freq - (FCF1 : ℚ)) 3 * 10000)
    match pack16 FCF2 with
    | none => .error "struct.error"
    | some (hi2, lo2) => .ok [mkFrame 1 53 hi1 lo1, mkFrame 1 54 hi2 lo2]

def DEFAULT_WSS_LOSS : String := "4.0"

def INSERVICE : String := "in-service"

/-- `Lumentum.WSSConnection`; the frequency endpoints are kept as exact
rationals (the source stores their decimal string forms). -/
structure WSSConnection where
  module : String
  connection_id : String
  operation : String
  blocked : String
  input_port : String
  output_port : String
  start_freq : ℚ
  end_freq : ℚ
  attenuation : String
  name : String
deriving DecidableEq, Inhabited

/-- `Lumentum.gen_dwdm_connections`. -/
def gen_dwdm_connections (module input_port output_port : String)
    (channel_spacing : ℚ := 50) (channel_width : ℚ := 50)
    (loss : String := DEFAULT_WSS_LOSS) : List WSSConnection :=
  let half_channel_width := channel_width / 2
  let start_center_frequency : ℚ := 191350
  (List.range 96).map fun (i : ℕ) =>
    let center_frequency := start_center_frequency + (i : ℚ) * channel_spacing
    { module := module
      connection_id := toString (i + 1)
      operation := INSERVICE
      blocked := "false"
      input_port := input_port
      output_port := output_port
      start_freq := center_frequency - half_channel_width
      end_freq := center_frequency + half_channel_width
      attenuation := loss
      name := "CH" ++ toString (i + 1) }

/-- Outcome of one of the module-level power-reading retry loops: either the
loop condition failed after some number of corrective iterations (`success`),
or the attempt counter hit its cap and the script prompted the operator via
`raw_input`, issued one final poll, and broke out (`operatorEscalation`).
In both cases the second field is the length of the final `power_reading`. -/
inductive RetryOutcome where
  | success (retries : ℕ) (finalLen : ℕ)
  | operatorEscalation (retries : ℕ) (finalLen : ℕ)
deriving DecidableEq

/-- Tx-side power-reading loop (`while len(power_reading) <= 1:`), attempt
cap 5. `polls k` is the number of fields returned by the k-th
`calient_get_power` call, the initial poll being `polls 0`; `i` is the index
of the last poll, so `power_reading_count = i + 1`, and the fuel argument is
`4 - i` at every reachable call. -/
def txPowerGo (polls : ℕ → ℕ) : ℕ → ℕ → RetryOutcome
  | i, 0 =>
    if polls i ≤ 1 then .operatorEscalation i (polls (i + 1))
    else .success i (polls i)
  | i, fuel + 1 =>
    if polls i ≤ 1 then
      if i + 2 = 5 then .operatorEscalation (i + 1) (polls (i + 2))
      else txPowerGo polls (i + 1) fuel
    else .success i (polls i)

/-- The Tx-side loop entered after `power_reading_count = 1`. -/
def txPowerLoop (polls : ℕ → ℕ) : RetryOutcome := txPowerGo polls 0 4

/-- Drop-port power-reading loop (`while len(power_reading) == 1:`), attempt
cap 10; its body only sleeps and re-polls. -/
def dropPowerGo (polls : ℕ → ℕ) : ℕ → ℕ → RetryOutcome
  | i, 0 =>
    if polls i = 1 then .operatorEscalation i (polls (i + 1))
    else .success i (polls i)
  | i, fuel + 1 =>
    if polls i = 1 then
      if i + 2 = 10 then .operatorEscalation (i + 1) (polls (i + 2))
      else dropPowerGo polls (i + 1) fuel
    else .success i (polls i)

/-- The drop-port loop entered after `power_reading_count = 1`. -/
def dropPowerLoop (polls : ℕ → ℕ) : RetryOutcome := dropPowerGo polls 0 9

/-- Inner helper `linear_to_db`: raises `ValueError` on a non-positive
argument. -/
noncomputable def linear_to_db (x : ℝ) : Except String ℝ :=
  if x ≤ 0 then .error "ValueError" else .ok (10 * Real.logb 10 x)

/-- Inner helper `db_to_linear`: `10 ** (dbm_power_value / 10.0)`. -/
noncomputable def db_to_linear (d : ℝ) : ℝ := (10 : ℝ) ^ (d / 10)

/-- `calculate_predicted_channel_power_from_peak_voltage`; the channel count
is a natural number. -/
noncomputable def calculate_predicted_channel_power_from_peak_voltage
    (peak_voltage single_channel_probed_power target_gain pd_response : ℝ)
    (existing_channel_num : ℕ) : Except String ℝ :=
  match linear_to_db (peak_voltage / pd_response) with
  | .error e => .error e
  | .ok peak_power_dbm =>
    let single_channel_peak_power_dbm := single_channel_probed_power
    let ripple := peak_power_dbm - single_channel_peak_power_dbm
    let edfa_gain_linear := db_to_linear (target_gain + ripple)
    let target_gain_linear := db_to_linear target_gain
    let mean_gain_linear :=
      (edfa_gain_linear + target_gain_linear * existing_channel_num) /
        (existing_channel_num + 1)
    match linear_to_db mean_gain_linear with
    | .error e => .error e
    | .ok mean_gain_db => .ok ((target_gain - mean_gain_db) + peak_power_dbm)

/-- One character class of `pattern1`: `[1-9]`. -/
def isNonZeroDigit (c : Char) : Bool := '1' ≤ c && c ≤ '9'

/-- Whether an 11-character window matches
`[1-9].[1-9].[1-9][>-][1-9].[1-9].[1-9]` (the unescaped dots match any
character). -/
def pat1Ok (l : List Char) : Bool :=
  match l with
  | [a, _, b, _, c, s, d, _, e, _, f] =>
    isNonZeroDigit a && isNonZeroDigit b && isNonZeroDigit c &&
      (s == '>' || s == '-') && isNonZeroDigit d && isNonZeroDigit e &&
      isNonZeroDigit f
  | _ => false

/-- `re.search(pattern1, port_data)`: the leftmost 11-character window
matching the cross-connect pattern. -/
def searchPat1 : List Char → Option (List Char)
  | [] => none
  | c :: rest =>
    if pat1Ok ((c :: rest).take 11) then some ((c :: rest).take 11)
    else searchPat1 rest

/-- Greedy match of `\d+(?:\.\d+)?` at the head of the input, returning the
matched characters. -/
def numMatch (l : List Char) : Option (List Char) :=
  match l.takeWhile Char.isDigit, l.dropWhile Char.isDigit with
  | [], _ => none
  | ds, '.' :: r =>
    match r.takeWhile Char.isDigit with
    | [] => some ds
    | ds2 => some (ds ++ '.' :: ds2)
  | ds, _ => some ds

/-- Match `KEY[+-]?\d+(?:\.\d+)?` at the head of the input: the optional sign
is consumed only when digits follow it (otherwise the regex engine backtracks
to the empty sign and then fails on the sign character). -/
def tokenMatchAt (key : List Char) (l : List Char) : Option (List Char) :=
  if l.take key.length = key then
    match l.drop key.length with
    | [] => none
    | c :: r =>
      if c = '+' ∨ c = '-' then
        match numMatch r with
        | some m => some (key ++ c :: m)
        | none => none
      else
        match numMatch (c :: r) with
        | some m => some (key ++ m)
        | none => none
  else none

/-- `re.search` for the `INPWR=`/`OUTPWR=` patterns: leftmost match wins. -/
def searchToken (key : List Char) : List Char → Option (List Char)
  | [] => none
  | c :: rest =>
    match tokenMatchAt key (c :: rest) with
    | some m => some m
    | none => searchToken key rest

/-- `get_crs_power(tn, _port)` applied to the response text it reads back:
the three optional pattern hits are appended to `port` in order. -/
def get_crs_power (port_data : List Char) : List (List Char) :=
  let port0 : List (List Char) := []
  let port1 :=
    match searchPat1 port_data with
    | some m => port0 ++ [m]
    | none => port0
  let port2 :=
    match searchToken "INPWR=".data port_data with
    | some m => port1 ++ [m]
    | none => port1
  match searchToken "OUTPWR=".data port_data with
  | some m => port2 ++ [m]
  | none => port2

/-- Result of an RPC call on the NETCONF transport, as seen by the client
code: a reply document, or a raised exception carrying a message. -/
inductive RpcResult (α : Type) where
  | success (reply : α)
  | failure (msg : String)

/-- The `config` child of one `connection` element of the parsed
`get-connections` document; `none` models an absent key (a `KeyError` on
access). Text fields are character lists. -/
structure ConnDetailConfig where
  maintenance_state : Option (List Char)
  blocked : Option (List Char)
  start_freq : Option (List Char)
  end_freq : Option (List Char)
  attenuation : Option (List Char)
  input_port_reference : Option (List Char)
  output_port_reference : Option (List Char)
  custom_name : Option (List Char)
deriving DecidableEq

/-- The `state` child: channel powers. -/
structure ConnDetailState where
  input_power : Option (List Char)
  output_power : Option (List Char)
deriving DecidableEq

/-- One `connection` element of the queried document. -/
structure ConnectionDetail where
  dn : List Char
  config : ConnDetailConfig
  state : ConnDetailState
deriving DecidableEq

/-- `Lumentum.WSSConnectionStatus`, as parsed back from the document (all
fields arrive as text). -/
structure WSSConnectionStatus where
  module : List Char
  connection_id : List Char
  operation : List Char
  blocked : List Char
  input_port : List Char
  output_port : List Char
  start_freq : List Char
  end_freq : List Char
  attenuation : List Char
  name : List Char
  input_power : List Char
  output_power : List Char
  ne : List Char
  chassis : List Char
  card : List Char
deriving DecidableEq

/-- Splitting worker for Python `str.split(sep)` with a non-empty separator;
the fuel argument bounds the recursion by the input length. -/
def pySplitGo (sep : List Char) : ℕ → List Char → List Char → List (List Char)
  | 0, l, acc => [acc.reverse ++ l]
  | fuel + 1, l, acc =>
    match l with
    | [] => [acc.reverse]
    | c :: rest =>
      if l.take sep.length = sep then
        acc.reverse :: pySplitGo sep fuel (l.drop sep.length) []
      else pySplitGo sep fuel rest (c :: acc)

/-- Python `s.split(sep)` for a non-empty separator. -/
def pySplit (s sep : List Char) : List (List Char) :=
  pySplitGo sep (s.length + 1) s []

/-- `dn.split(';')[i].split('=')[1]`; `none` models the `IndexError`. -/
def dnField (dn : List Char) (i : ℕ) : Option (List Char) :=
  match (pySplit dn ";".data).get? i with
  | none => none
  | some part => (pySplit part "=".data).get? 1

/-- `ref.split('port=')[1]`. -/
def portField (ref : List Char) : Option (List Char) :=
  (pySplit ref "port=".data).get? 1

/-- The body of `WSSConnectionStatus.from_connection_details` for one
element: any missing key or malformed field raises (`none`). -/
def parseConnectionDetail (cd : ConnectionDetail) : Option WSSConnectionStatus := do
  let module ← dnField cd.dn 3
  let connection_id ← dnField cd.dn 4
  let operation ← cd.config.maintenance_state
  let blocked ← cd.config.blocked
  let ipr ← cd.config.input_port_reference
  let input_port ← portField ipr
  let opr ← cd.config.output_port_reference
  let output_port ← portField opr
  let start_freq ← cd.config.start_freq
  let end_freq ← cd.config.end_freq
  let attenuation ← cd.config.attenuation
  let name ← cd.config.custom_name
  let input_power ← cd.state.input_power
  let output_power ← cd.state.output_power
  let ne ← dnField cd.dn 0
  let chassis ← dnField cd.dn 1
  let card ← dnField cd.dn 2
  pure { module, connection_id, operation, blocked, input_port, output_port,
         start_freq, end_freq, attenuation, name, input_power, output_power,
         ne, chassis, card }

/-- Termination of a Python call: a value, or an uncaught exception named by
its class. -/
inductive PyOutcome (α : Type) where
  | ok (a : α)
  | exn (exnName : String)
deriving DecidableEq

/-- The list comprehension of `from_connection_details`: parse every record,
propagating the first failure. -/
def parseAll : List ConnectionDetail → Option (List WSSConnectionStatus)
  | [] => some []
  | cd :: rest =>
    match parseConnectionDetail cd, parseAll rest with
    | some s, some l => some (s :: l)
    | _, _ => none

/-- `Lumentum.wss_get_connections`: the RPC error is caught and printed, but
`connection_details` is then left unbound, so the unconditional parse call
raises `NameError`; a record with a missing required field raises `KeyError`
(or `IndexError`) inside `from_connection_details`. -/
def wss_get_connections (transport : RpcResult (List ConnectionDetail)) :
    PyOutcome (List WSSConnectionStatus) :=
  match transport with
  | .failure _ => .exn "NameError"
  | .success details =>
    match parseAll details with
    | none => .exn "KeyError"
    | some l => .ok l

/-- `Lumentum.wss_delete_connection`: the whole body sits inside
`try/except Exception`, which prints and returns normally; the result lists
what got printed. -/
def wss_delete_connection (transport : RpcResult String) :
    PyOutcome (List String) :=
  match transport with
  | .success reply =>
    if (reply.splitOn "<ok/>").length ≥ 2 then
      .ok ["Successfully Deleted Connection"]
    else .ok []
  | .failure e => .ok ["Encountered the following RPC error!", e]

/-- `Lumentum.wss_add_connections`: same catch-all shape around
`edit_config`. -/
def wss_add_connections (transport : RpcResult String) :
    PyOutcome (List String) :=
  match transport with
  | .success reply =>
    if (reply.splitOn "<ok/>").length ≥ 2 then
      .ok ["Successfully Added Connections"]
    else .ok []
  | .failure e => .ok ["Encountered the following RPC error!", e]

/-- `calculate_idle_voltage`: mean of the samples strictly below the trigger;
`none` models the `ZeroDivisionError` when the filtered list is empty. -/
def calculate_idle_voltage (data : List ℚ) (trigger_level : ℚ) : Option ℚ :=
  let d := data.filter fun x => x < trigger_level
  if d.length = 0 then none else some (d.sum / d.length)

/-- `calculate_peak_voltage`: mean of the samples strictly above the
trigger. -/
def calculate_peak_voltage (data : List ℚ) (trigger_level : ℚ) : Option ℚ :=
  let d := data.filter fun x => trigger_level < x
  if d.length = 0 then none else some (d.sum / d.length)

/-- Exit condition of the capture-validity loop
`while peak_voltage < trigger_level or idle_voltage > trigger_level:` with
`peak_voltage = max(data)` and `idle_voltage = min(data)`: the loop is left
once `max(data) >= trigger_level` and `min(data) <= trigger_level`, both
non-strict. -/
def captureValid (data : List ℚ) (trigger_level : ℚ) : Bool :=
  match data.max?, data.min? with
  | some mx, some mn => decide (trigger_level ≤ mx) && decide (mn ≤ trigger_level)
  | _, _ => false

deriving instance DecidableEq for Except

/-- The folded checksum is always a nibble. -/
theorem cal_checksum_lt_16 (d0 d1 d2 d3 : ℕ) : cal_checksum d0 d1 d2 d3 < 16 := by
  unfold cal_checksum
  have h4 : (16 : ℕ) = 2 ^ 4 := by norm_num
  rw [h4]
  apply Nat.xor_lt_two_pow
  · rw [Nat.shiftRight_eq_div_pow]
    calc (((d0 &&& 0x0f) ^^^ d1 ^^^ d2 ^^^ d3) &&& 0xf0) / 2 ^ 4
        ≤ 0xf0 / 2 ^ 4 := Nat.div_le_div_right Nat.and_le_right
      _ < 2 ^ 4 := by norm_num
  · exact lt_of_le_of_lt Nat.and_le_right (by norm_num)

/-- Placing a nibble in the high half of the mode byte keeps the low nibble
and is recovered by the shift. -/
theorem nibble_place_facts : ∀ b < 16,
    (1 ^^^ (b <<< 4)) &&& 15 = 1 ∧ ((1 ^^^ (b <<< 4)) >>> 4) &&& 15 = b := by
  decide

/-- Every frame assembled from the computed checksum is conformant. -/
theorem frameOk_mkFrame (r hi lo : ℕ) : frameOk (mkFrame 1 r hi lo) = true := by
  obtain ⟨h1, h2⟩ :=
    nibble_place_facts (cal_checksum 1 r hi lo) (cal_checksum_lt_16 1 r hi lo)
  show ((((1 ^^^ (cal_checksum 1 r hi lo <<< 4)) >>> 4) &&& 0x0f) ==
      ((((((1 ^^^ (cal_checksum 1 r hi lo <<< 4)) &&& 0x0f) ^^^ r ^^^ hi ^^^ lo) &&& 0xf0) >>> 4) ^^^
       ((((1 ^^^ (cal_checksum 1 r hi lo <<< 4)) &&& 0x0f) ^^^ r ^^^ hi ^^^ lo) &&& 0x0f))) = true
  rw [h1, h2]
  simp [cal_checksum]

/-- C1: every 4-byte frame the laser driver writes to the serial session —
the frames built by `set_power`, `set_channel` and
`set_first_channel_frequency`, and also the fixed `laser_on` and `laser_off`
frames — is checksum-conformant: the high nibble of the first byte equals
`bip4 = ((bip8 & 0xF0) >> 4) XOR (bip8 & 0x0F)` where `bip8` is the XOR of
the low nibble of the mode byte with the other three bytes. -/
theorem C1_laser_frames_conformant :
    (∀ value frames, set_power value = .ok frames →
      ∀ f ∈ frames, frameOk f = true) ∧
    (∀ num frames, set_channel num = .ok frames →
      ∀ f ∈ frames, frameOk f = true) ∧
    (∀ freq frames, set_first_channel_frequency freq = .ok frames →
      ∀ f ∈ frames, frameOk f = true) ∧
    frameOk laser_on_frame = true ∧ frameOk laser_off_frame = true := by
  refine ⟨?_, ?_, ?_, by decide, by decide⟩
  · intro v fs h f hf
    unfold set_power at h
    split at h
    · simp at h
    · split at h
      · injection h with h
        subst h
        simp only [List.mem_singleton] at hf
        subst hf
        exact frameOk_mkFrame _ _ _
      · simp at h
  · intro n fs h f hf
    unfold set_channel at h
    split at h
    · injection h with h
      subst h
      simp only [List.mem_singleton] at hf
      subst hf
      exact frameOk_mkFrame _ _ _
    · simp at h
  · intro freq fs h f hf
    simp only [set_first_channel_frequency] at h
    split at h
    · simp at h
    · split at h
      · simp at h
      · injection h with h
        subst h
        simp only [List.mem_cons, List.not_mem_nil, or_false] at hf
        rcases hf with hf | hf
        · subst hf; exact frameOk_mkFrame _ _ _
        · subst hf; exact frameOk_mkFrame _ _ _

/-- Witness for C1: `set_power 7` writes the single frame
`mkFrame 1 49 2 188`, which is conformant. -/
theorem C1_witness : frameOk (mkFrame 1 49 2 188) = true :=
  C1_laser_frames_conformant.1 7 [mkFrame 1 49 2 188]
    (by norm_num [set_power, pyRound, truncRat, pack16]; decide)
    (mkFrame 1 49 2 188) (by simp)

/-- The i-th generated connection, in closed form. -/
theorem gen_dwdm_connections_get (m ip op : String) (s w : ℚ) (loss : String)
    (i : ℕ) (h : i < 96) :
    (gen_dwdm_connections m ip op s w loss)[i]! =
      { module := m
        connection_id := toString (i + 1)
        operation := INSERVICE
        blocked := "false"
        input_port := ip
        output_port := op
        start_freq := 191350 + i * s - w / 2
        end_freq := 191350 + i * s + w / 2
        attenuation := loss
        name := "CH" ++ toString (i + 1) } := by
  have hlen : i < (gen_dwdm_connections m ip op s w loss).length := by
    unfold gen_dwdm_connections
    rw [List.length_map, List.length_range]
    exact h
  rw [getElem!_pos (gen_dwdm_connections m ip op s w loss) i hlen]
  unfold gen_dwdm_connections
  simp

/-- C3: for every module, input port, output port and loss,
`gen_dwdm_connections` returns exactly 96 connections, each passband is
`191350 + i*spacing ± width/2` GHz, and whenever the spacing equals the
width adjacent passbands meet exactly (gapless grid). -/
theorem C3_grid_96_and_gapless :
    ∀ (m ip op : String) (spacing width : ℚ) (loss : String),
      (gen_dwdm_connections m ip op spacing width loss).length = 96 ∧
      (∀ i : ℕ, i < 96 →
        (gen_dwdm_connections m ip op spacing width loss)[i]!.start_freq
            = 191350 + (i : ℚ) * spacing - width / 2 ∧
        (gen_dwdm_connections m ip op spacing width loss)[i]!.end_freq
            = 191350 + (i : ℚ) * spacing + width / 2) ∧
      (spacing = width → ∀ i : ℕ, i + 1 < 96 →
        (gen_dwdm_connections m ip op spacing width loss)[i]!.end_freq
          = (gen_dwdm_connections m ip op spacing width loss)[i + 1]!.start_freq) := by
  intro m ip op s w loss
  refine ⟨by unfold gen_dwdm_connections; rw [List.length_map, List.length_range], ?_, ?_⟩
  · intro i hi
    rw [gen_dwdm_connections_get m ip op s w loss i hi]
    exact ⟨rfl, rfl⟩
  · intro hsw i hi
    rw [gen_dwdm_connections_get m ip op s w loss i (by omega),
        gen_dwdm_connections_get m ip op s w loss (i + 1) hi]
    subst hsw
    show 191350 + (i : ℚ) * s + s / 2 = 191350 + ((i : ℕ) + 1 : ℕ) * s - s / 2
    push_cast
    ring

/-- Witness for C3 at the default arguments of the source: 96 channels and
the first two passbands meet at 191375 GHz. -/
theorem C3_witness :
    (gen_dwdm_connections "1" "4104" "4201" 50 50 "4.0").length = 96 ∧
    (gen_dwdm_connections "1" "4104" "4201" 50 50 "4.0")[0]!.end_freq
      = (gen_dwdm_connections "1" "4104" "4201" 50 50 "4.0")[1]!.start_freq :=
  ⟨(C3_grid_96_and_gapless "1" "4104" "4201" 50 50 "4.0").1,
   (C3_grid_96_and_gapless "1" "4104" "4201" 50 50 "4.0").2.2 rfl 0 (by norm_num)⟩

/-- Truncation toward zero is the identity on integers. -/
theorem truncRat_intCast (n : ℤ) : truncRat (n : ℚ) = n := by
  unfold truncRat
  split
  · exact Int.floor_intCast n
  · rw [show (-(n : ℚ)) = ((-n : ℤ) : ℚ) by push_cast; ring, Int.floor_intCast]
    omega

/-- Closed form of `set_power` on an accepted value: the rounded payload
`round(value, 2) * 100` is the integer `k = floor(value * 100 + 1/2)`, it
lies in `[600, 1350]`, and the pack succeeds. -/
theorem set_power_accepted (v : ℚ) (h1 : 6 ≤ v) (h2 : v ≤ 13.5) :
    600 ≤ ⌊v * 100 + 1/2⌋ ∧ ⌊v * 100 + 1/2⌋ ≤ 1350 ∧
    pyRound v 2 * 100 = ((⌊v * 100 + 1/2⌋ : ℤ) : ℚ) ∧
    set_power v =
      .ok [mkFrame 1 49 ((⌊v * 100 + 1/2⌋).toNat / 256)
        ((⌊v * 100 + 1/2⌋).toNat % 256)] := by
  have h135 : v ≤ 27/2 := by linarith [show (13.5 : ℚ) = 27/2 by norm_num]
  have hv0 : (0 : ℚ) ≤ v := by linarith
  have hk1 : (600 : ℤ) ≤ ⌊v * 100 + 1/2⌋ := by
    rw [Int.le_floor]
    push_cast
    linarith
  have hk2 : ⌊v * 100 + 1/2⌋ ≤ 1350 := by
    have hlt : ⌊v * 100 + 1/2⌋ < 1351 := by
      rw [Int.floor_lt]
      push_cast
      linarith
    omega
  have hround : pyRound v 2 * 100 = ((⌊v * 100 + 1/2⌋ : ℤ) : ℚ) := by
    simp only [pyRound, if_pos hv0]
    norm_num
  refine ⟨hk1, hk2, hround, ?_⟩
  unfold set_power
  rw [if_neg (by push_neg; exact ⟨h1, by linarith⟩)]
  rw [hround, truncRat_intCast]
  unfold pack16
  rw [if_pos ⟨by omega, by omega⟩]
  rw [Int.emod_eq_of_lt (by omega) (by omega)]

/-- C4: `set_power` raises `PowerLimitError` before writing anything exactly
outside `[6.0, 13.5]`; inside the closed interval (endpoints included) it
writes exactly one frame; 5.9 and 13.6 are rejected, 6.0 and 13.5
accepted. -/
theorem C4_set_power_range :
    (∀ v : ℚ, v < 6 ∨ v > 13.5 → set_power v = .error "PowerLimitError") ∧
    (∀ v : ℚ, 6 ≤ v → v ≤ 13.5 → ∃ f, set_power v = .ok [f]) ∧
    set_power (59/10) = .error "PowerLimitError" ∧
    set_power (68/5) = .error "PowerLimitError" ∧
    (∃ f, set_power 6 = .ok [f]) ∧
    (∃ f, set_power (27/2) = .ok [f]) := by
  refine ⟨?_, ?_, ?_, ?_, ?_, ?_⟩
  · intro v hv
    unfold set_power
    rw [if_pos hv]
  · intro v h1 h2
    exact ⟨_, (set_power_accepted v h1 h2).2.2.2⟩
  · unfold set_power
    rw [if_pos (Or.inl (by norm_num))]
  · unfold set_power
    rw [if_pos (Or.inr (by norm_num))]
  · exact ⟨_, (set_power_accepted 6 (le_refl 6) (by norm_num)).2.2.2⟩
  · exact ⟨_, (set_power_accepted (27/2) (by norm_num) (by norm_num)).2.2.2⟩

/-- Witness for C4: 7.0 dBm is accepted and writes one frame. -/
theorem C4_witness : ∃ f, set_power 7 = .ok [f] :=
  C4_set_power_range.2.1 7 (by norm_num) (by norm_num)

/-- C2 counterexample: with every poll returning an empty field list (fewer
than 2 fields), the drop-port loop exits immediately with zero corrective
retries — its condition retries only on exactly one field — and the Tx-side
loop ends in an operator `raw_input` prompt after four corrective cycles;
neither loop reports a `ConvergenceTimeoutError` (no such error exists in
the code). -/
theorem C2_counterexample :
    dropPowerLoop (fun _ => 0) = .success 0 0 ∧
    txPowerLoop (fun _ => 0) = .operatorEscalation 4 0 := by
  constructor
  · decide
  · decide

/-- C2 amended: the Tx-side loop performs one corrective cycle per poll with
at most one field and, when the attempt counter reaches its cap of 5, prompts
the operator, issues one final poll and breaks instead of raising; the
drop-port loop behaves likewise with cap 10, but it retries only on polls
with exactly one field — a zero-field poll exits it at once. -/
theorem C2_amended_retry_behaviour :
    (∀ polls : ℕ → ℕ, (∀ k, k ≤ 3 → polls k ≤ 1) →
      txPowerLoop polls = .operatorEscalation 4 (polls 5)) ∧
    (∀ (polls : ℕ → ℕ) (j : ℕ), j ≤ 3 → (∀ k, k < j → polls k ≤ 1) →
      2 ≤ polls j → txPowerLoop polls = .success j (polls j)) ∧
    (∀ polls : ℕ → ℕ, (∀ k, k ≤ 8 → polls k = 1) →
      dropPowerLoop polls = .operatorEscalation 9 (polls 10)) ∧
    (∀ (polls : ℕ → ℕ) (j : ℕ), j ≤ 8 → (∀ k, k < j → polls k = 1) →
      polls j ≠ 1 → dropPowerLoop polls = .success j (polls j)) := by
  refine ⟨?_, ?_, ?_, ?_⟩
  · intro polls h
    simp [txPowerLoop, txPowerGo, h 0 (by norm_num), h 1 (by norm_num),
      h 2 (by norm_num), h 3 (by norm_num)]
  · intro polls j hj hlt h2j
    have hnot : ¬ (polls j ≤ 1) := by omega
    interval_cases j
    · simp [txPowerLoop, txPowerGo, hnot]
    · simp [txPowerLoop, txPowerGo, hlt 0 (by norm_num), hnot]
    · simp [txPowerLoop, txPowerGo, hlt 0 (by norm_num), hlt 1 (by norm_num), hnot]
    · simp [txPowerLoop, txPowerGo, hlt 0 (by norm_num), hlt 1 (by norm_num),
        hlt 2 (by norm_num), hnot]
  · intro polls h
    simp [dropPowerLoop, dropPowerGo, h 0 (by norm_num), h 1 (by norm_num),
      h 2 (by norm_num), h 3 (by norm_num), h 4 (by norm_num), h 5 (by norm_num),
      h 6 (by norm_num), h 7 (by norm_num), h 8 (by norm_num)]
  · intro polls j hj hlt hne
    interval_cases j
    · simp [dropPowerLoop, dropPowerGo, hne]
    · simp [dropPowerLoop, dropPowerGo, hlt 0 (by norm_num), hne]
    · simp [dropPowerLoop, dropPowerGo, hlt 0 (by norm_num), hlt 1 (by norm_num), hne]
    · simp [dropPowerLoop, dropPowerGo, hlt 0 (by norm_num), hlt 1 (by norm_num),
        hlt 2 (by norm_num), hne]
    · simp [dropPowerLoop, dropPowerGo, hlt 0 (by norm_num), hlt 1 (by norm_num),
        hlt 2 (by norm_num), hlt 3 (by norm_num), hne]
    · simp [dropPowerLoop, dropPowerGo, hlt 0 (by norm_num), hlt 1 (by norm_num),
        hlt 2 (by norm_num), hlt 3 (by norm_num), hlt 4 (by norm_num), hne]
    · simp [dropPowerLoop, dropPowerGo, hlt 0 (by norm_num), hlt 1 (by norm_num),
        hlt 2 (by norm_num), hlt 3 (by norm_num), hlt 4 (by norm_num),
        hlt 5 (by norm_num), hne]
    · simp [dropPowerLoop, dropPowerGo, hlt 0 (by norm_num), hlt 1 (by norm_num),
        hlt 2 (by norm_num), hlt 3 (by norm_num), hlt 4 (by norm_num),
        hlt 5 (by norm_num), hlt 6 (by norm_num), hne]
    · simp [dropPowerLoop, dropPowerGo, hlt 0 (by norm_num), hlt 1 (by norm_num),
        hlt 2 (by norm_num), hlt 3 (by norm_num), hlt 4 (by norm_num),
        hlt 5 (by norm_num), hlt 6 (by norm_num), hlt 7 (by norm_num), hne]

/-- Witness for C2: a Tx run succeeding on the third poll after two
corrective cycles, and a drop run exiting on a zero-field fourth poll. -/
theorem C2_witness :
    txPowerLoop (fun k => if k = 2 then 5 else 0) = .success 2 5 ∧
    dropPowerLoop (fun k => if k = 3 then 0 else 1) = .success 3 0 := by
  constructor
  · exact C2_amended_retry_behaviour.2.1 (fun k => if k = 2 then 5 else 0) 2
      (by norm_num) (by intro k hk; interval_cases k <;> norm_num) (by norm_num)
  · exact C2_amended_retry_behaviour.2.2.2 (fun k => if k = 3 then 0 else 1) 3
      (by norm_num) (by intro k hk; interval_cases k <;> norm_num) (by norm_num)

/-- C6: the prediction fails with `ValueError` exactly when
`peak_voltage / pd_response <= 0`; on a positive ratio it returns
`(target_gain - mean_gain_dB) + peak_power_dBm`, where
`peak_power_dBm = 10*log10(peak/pd)`, the ripple is the excess of that peak
over the single-channel reference, and `mean_gain_dB` is the dB value of the
linear blend of the ripple-implied gain with `existing_channel_num` copies of
the target gain. -/
theorem C6_prediction_error_iff_and_formula
    (peak_voltage single_channel_probed_power target_gain pd_response : ℝ)
    (existing_channel_num : ℕ) :
    (calculate_predicted_channel_power_from_peak_voltage peak_voltage
        single_channel_probed_power target_gain pd_response existing_channel_num
      = .error "ValueError" ↔ peak_voltage / pd_response ≤ 0) ∧
    (0 < peak_voltage / pd_response →
      calculate_predicted_channel_power_from_peak_voltage peak_voltage
          single_channel_probed_power target_gain pd_response existing_channel_num
        = .ok ((target_gain -
            10 * Real.logb 10
              (((10 : ℝ) ^ ((target_gain +
                    (10 * Real.logb 10 (peak_voltage / pd_response) -
                      single_channel_probed_power)) / 10)
                  + (10 : ℝ) ^ (target_gain / 10) * (existing_channel_num : ℝ)) /
                ((existing_channel_num : ℝ) + 1))) +
            10 * Real.logb 10 (peak_voltage / pd_response))) := by
  have hok : 0 < peak_voltage / pd_response →
      calculate_predicted_channel_power_from_peak_voltage peak_voltage
          single_channel_probed_power target_gain pd_response existing_channel_num
        = .ok ((target_gain -
            10 * Real.logb 10
              (((10 : ℝ) ^ ((target_gain +
                    (10 * Real.logb 10 (peak_voltage / pd_response) -
                      single_channel_probed_power)) / 10)
                  + (10 : ℝ) ^ (target_gain / 10) * (existing_channel_num : ℝ)) /
                ((existing_channel_num : ℝ) + 1))) +
            10 * Real.logb 10 (peak_voltage / pd_response)) := by
    intro hx
    have hx' : ¬ (peak_voltage / pd_response ≤ 0) := not_le.mpr hx
    unfold calculate_predicted_channel_power_from_peak_voltage linear_to_db db_to_linear
    rw [if_neg hx']
    dsimp only
    split_ifs with hcond
    · exact absurd hcond (not_le.mpr (by positivity))
    · rfl
  refine ⟨⟨?_, ?_⟩, hok⟩
  · intro herr
    by_contra hx
    push_neg at hx
    rw [hok hx] at herr
    exact Except.noConfusion herr
  · intro hx
    unfold calculate_predicted_channel_power_from_peak_voltage linear_to_db
    rw [if_pos hx]

/-- Witness for C6 at the characterization test inputs
`(488.0, -13.5, 18.0, 14276.0, 1)`. -/
theorem C6_witness :
    calculate_predicted_channel_power_from_peak_voltage 488 (-13.5) 18 14276 1
      = .ok ((18 -
          10 * Real.logb 10
            (((10 : ℝ) ^ ((18 + (10 * Real.logb 10 ((488 : ℝ) / 14276) - (-13.5))) / 10)
                + (10 : ℝ) ^ ((18 : ℝ) / 10) * ((1 : ℕ) : ℝ)) /
              (((1 : ℕ) : ℝ) + 1))) +
          10 * Real.logb 10 ((488 : ℝ) / 14276)) :=
  (C6_prediction_error_iff_and_formula 488 (-13.5) 18 14276 1).2 (by norm_num)

/-- A hit of the fixed-length cross-connect pattern search satisfies the
pattern. -/
theorem searchPat1_ok (pd : List Char) (m : List Char)
    (h : searchPat1 pd = some m) : pat1Ok m = true := by
  induction pd with
  | nil => simp [searchPat1] at h
  | cons c rest ih =>
    rw [searchPat1] at h
    split at h
    · injection h with h
      subst h
      assumption
    · exact ih h

/-- A `tokenMatchAt` hit starts with the key. -/
theorem tokenMatchAt_key (key l m : List Char)
    (h : tokenMatchAt key l = some m) : ∃ t, m = key ++ t := by
  unfold tokenMatchAt at h
  split at h
  · split at h
    · exact absurd h (by simp)
    · split at h
      · split at h
        · injection h with h
          exact ⟨_, h.symm⟩
        · exact absurd h (by simp)
      · split at h
        · injection h with h
          exact ⟨_, h.symm⟩
        · exact absurd h (by simp)
  · exact absurd h (by simp)

/-- A `searchToken` hit starts with the key. -/
theorem searchToken_key (key pd m : List Char)
    (h : searchToken key pd = some m) : ∃ t, m = key ++ t := by
  induction pd with
  | nil => simp [searchToken] at h
  | cons c rest ih =>
    rw [searchToken] at h
    split at h
    · rename_i m' hm'
      injection h with h
      subst h
      exact tokenMatchAt_key key _ _ hm'
    · exact ih h

/-- C7: for every response text, `get_crs_power` returns at most three
entries — the optional cross-connect descriptor matching the port pattern,
an `INPWR=` token, and an `OUTPWR=` token, in that order — and an absent
field is simply omitted from the result; the call is total, so a short
result is not a failure. -/
theorem C7_get_crs_power_shape :
    ∀ pd : List Char,
      (get_crs_power pd).length ≤ 3 ∧
      get_crs_power pd = (searchPat1 pd).toList
        ++ (searchToken "INPWR=".data pd).toList
        ++ (searchToken "OUTPWR=".data pd).toList ∧
      (∀ m, searchPat1 pd = some m → pat1Ok m = true) ∧
      (∀ m, searchToken "INPWR=".data pd = some m → ∃ t, m = "INPWR=".data ++ t) ∧
      (∀ m, searchToken "OUTPWR=".data pd = some m → ∃ t, m = "OUTPWR=".data ++ t) := by
  intro pd
  have heq : get_crs_power pd = (searchPat1 pd).toList
      ++ (searchToken "INPWR=".data pd).toList
      ++ (searchToken "OUTPWR=".data pd).toList := by
    unfold get_crs_power
    cases searchPat1 pd <;> cases searchToken "INPWR=".data pd <;>
      cases searchToken "OUTPWR=".data pd <;> simp
  refine ⟨?_, heq, fun m => searchPat1_ok pd m, fun m => searchToken_key _ pd m,
    fun m => searchToken_key _ pd m⟩
  rw [heq, List.length_append, List.length_append]
  have h1 : (searchPat1 pd).toList.length ≤ 1 := by
    cases searchPat1 pd <;> simp
  have h2 : (searchToken "INPWR=".data pd).toList.length ≤ 1 := by
    cases searchToken "INPWR=".data pd <;> simp
  have h3 : (searchToken "OUTPWR=".data pd).toList.length ≤ 1 := by
    cases searchToken "OUTPWR=".data pd <;> simp
  omega

/-- Witness for C7 on a realistic response: the descriptor hit matches the
pattern, the INPWR hit starts with its key, and the result stays within
three entries. -/
theorem C7_witness :
    pat1Ok "1.2.3>4.5.6".data = true ∧
    (∃ t, "INPWR=-3.50".data = "INPWR=".data ++ t) ∧
    (get_crs_power "1.2.3>4.5.6 INPWR=-3.50 OUTPWR=2".data).length ≤ 3 :=
  ⟨(C7_get_crs_power_shape "1.2.3>4.5.6 INPWR=-3.50 OUTPWR=2".data).2.2.1
      "1.2.3>4.5.6".data (by decide),
   (C7_get_crs_power_shape "1.2.3>4.5.6 INPWR=-3.50 OUTPWR=2".data).2.2.2.1
      "INPWR=-3.50".data (by decide),
   (C7_get_crs_power_shape "1.2.3>4.5.6 INPWR=-3.50 OUTPWR=2".data).1⟩

/-- If any record of the queried document fails to parse, the whole list
comprehension fails. -/
theorem parseAll_none (details : List ConnectionDetail) (cd : ConnectionDetail)
    (hmem : cd ∈ details) (hnone : parseConnectionDetail cd = none) :
    parseAll details = none := by
  induction details with
  | nil => simp at hmem
  | cons d ds ih =>
    rw [parseAll]
    rcases List.mem_cons.mp hmem with h | h
    · subst h
      rw [hnone]
    · cases hd : parseConnectionDetail d
      · rfl
      · rw [ih h]

/-- C8 counterexample: a failing RPC inside `wss_delete_connection` is caught
by its `except Exception` handler, printed, and the call returns normally —
the error is swallowed, not surfaced, so the claim that no protocol-layer
operation of the client swallows an error is false. -/
theorem C8_counterexample :
    wss_delete_connection (.failure "rpc timeout")
        = .ok ["Encountered the following RPC error!", "rpc timeout"] ∧
    wss_add_connections (.failure "rpc timeout")
        = .ok ["Encountered the following RPC error!", "rpc timeout"] := ⟨rfl, rfl⟩

/-- C8 amended: `wss_get_connections` does surface failures, but as untyped
exceptions — a failed RPC is printed and then hits the unconditional parse of
the unbound `connection_details` (`NameError`), and a record missing a
required field raises from the parser (`KeyError`) — while
`wss_delete_connection` and `wss_add_connections` catch every RPC error,
print it, and return normally. -/
theorem C8_amended_error_surfacing :
    (∀ e, wss_get_connections (.failure e) = .exn "NameError") ∧
    (∀ details : List ConnectionDetail,
      (∃ cd ∈ details, parseConnectionDetail cd = none) →
      wss_get_connections (.success details) = .exn "KeyError") ∧
    (∀ e, wss_delete_connection (.failure e)
        = .ok ["Encountered the following RPC error!", e]) ∧
    (∀ e, wss_add_connections (.failure e)
        = .ok ["Encountered the following RPC error!", e]) := by
  refine ⟨fun e => rfl, ?_, fun e => rfl, fun e => rfl⟩
  intro details h
  obtain ⟨cd, hmem, hnone⟩ := h
  show (match parseAll details with
    | none => PyOutcome.exn "KeyError"
    | some l => PyOutcome.ok l) = PyOutcome.exn "KeyError"
  rw [parseAll_none details cd hmem hnone]

/-- Witness for C8: a record whose `dn` has no fields fails to parse, and the
query surfaces `KeyError`. -/
theorem C8_witness :
    wss_get_connections (.success
      [{ dn := []
         config := { maintenance_state := none, blocked := none,
                     start_freq := none, end_freq := none, attenuation := none,
                     input_port_reference := none, output_port_reference := none,
                     custom_name := none }
         state := { input_power := none, output_power := none } }])
      = .exn "KeyError" :=
  C8_amended_error_surfacing.2.1
    [{ dn := []
       config := { maintenance_state := none, blocked := none,
                   start_freq := none, end_freq := none, attenuation := none,
                   input_port_reference := none, output_port_reference := none,
                   custom_name := none }
       state := { input_power := none, output_power := none } }]
    ⟨{ dn := []
       config := { maintenance_state := none, blocked := none,
                   start_freq := none, end_freq := none, attenuation := none,
                   input_port_reference := none, output_port_reference := none,
                   custom_name := none }
       state := { input_power := none, output_power := none } },
     List.mem_singleton.mpr rfl, by decide⟩

/-- C10: each averaging helper raises `ZeroDivisionError` exactly when no
sample lies strictly on its side of the trigger; the capture guard that
precedes them only establishes `max(data) >= trigger` and
`min(data) <= trigger` non-strictly; and a capture whose extreme sample
equals the trigger exactly passes the guard yet still divides by zero. -/
theorem C10_strict_filter_zero_division :
    (∀ (data : List ℚ) (t : ℚ),
      calculate_peak_voltage data t = none ↔ ∀ x ∈ data, x ≤ t) ∧
    (∀ (data : List ℚ) (t : ℚ),
      calculate_idle_voltage data t = none ↔ ∀ x ∈ data, t ≤ x) ∧
    (∀ (data : List ℚ) (t : ℚ), captureValid data t = true →
      (∃ x ∈ data, t ≤ x) ∧ (∃ x ∈ data, x ≤ t)) ∧
    (captureValid [1] 1 = true ∧ calculate_peak_voltage [1] 1 = none ∧
      calculate_idle_voltage [1] 1 = none) := by
  refine ⟨?_, ?_, ?_, by decide, by decide, by decide⟩
  · intro data t
    simp only [calculate_peak_voltage]
    split_ifs with hc
    · simp only [List.length_eq_zero, List.filter_eq_nil_iff] at hc
      constructor
      · intro _ x hx
        simpa using not_lt.mp (by simpa using hc x hx)
      · intro _
        rfl
    · constructor
      · intro h
        exact absurd h (by simp)
      · intro hall
        exfalso
        apply hc
        simp only [List.length_eq_zero, List.filter_eq_nil_iff]
        intro x hx
        simpa using not_lt.mpr (hall x hx)
  · intro data t
    simp only [calculate_idle_voltage]
    split_ifs with hc
    · simp only [List.length_eq_zero, List.filter_eq_nil_iff] at hc
      constructor
      · intro _ x hx
        simpa using not_lt.mp (by simpa using hc x hx)
      · intro _
        rfl
    · constructor
      · intro h
        exact absurd h (by simp)
      · intro hall
        exfalso
        apply hc
        simp only [List.length_eq_zero, List.filter_eq_nil_iff]
        intro x hx
        simpa using not_lt.mpr (hall x hx)
  · intro data t h
    unfold captureValid at h
    split at h
    · rename_i mx mn hmx hmn
      rw [Bool.and_eq_true, decide_eq_true_iff, decide_eq_true_iff] at h
      exact ⟨⟨mx, List.max?_mem max_choice hmx, h.1⟩,
             ⟨mn, List.min?_mem min_choice hmn, h.2⟩⟩
    · exact absurd h (by simp)

/-- Witness for C10: the guard holds for the capture `[1]` at trigger 1. -/
theorem C10_witness :
    (∃ x ∈ ([1] : List ℚ), (1 : ℚ) ≤ x) ∧ (∃ x ∈ ([1] : List ℚ), x ≤ (1 : ℚ)) :=
  C10_strict_filter_zero_division.2.2.1 [1] 1 (by decide)
